import Mathlib

/-!
Verification of the simplestclaw desktop core (Runtime Provisioner,
Process Supervisor, Bootstrap Config Composer) against its
natural-language specification.

The Rust sources under apps/desktop/src-tauri/src are shallowly embedded:
pure functions become Lean functions; effectful operations (filesystem,
network, process spawning, TCP probes) are parametrised by explicit
oracle/world records, and each public operation returns an outcome record
that carries the new state, the result, and instrumentation counters
(which return statement fired, how many spawns / orphan sweeps / port
re-probes happened).
-/

/- =====================================================================
   PART 1: definitions (shallow embedding of the source)
===================================================================== -/

/-- config.rs lines 27-34: supported AI providers. -/
inductive Provider
  | Anthropic
  | Openai
  | Google
  | Openrouter
deriving DecidableEq

/-- config.rs lines 43-50: API mode, managed proxy or bring-your-own key. -/
inductive ApiMode
  | Byo
  | Managed
deriving DecidableEq

/-- config.rs lines 60-69: tool access profile. -/
inductive ToolProfile
  | Full
  | Coding
  | Minimal
deriving DecidableEq

/-- config.rs lines 85-115: the persisted settings object.
`gateway_port` is a u16 in the source; its numeric range plays no role in
any claim, so it is embedded as Nat. -/
structure Config where
  provider : Provider
  anthropic_api_key : Option String
  gateway_port : Nat
  auto_start_gateway : Bool
  api_mode : ApiMode
  license_key : Option String
  user_email : Option String
  selected_model : Option String
  tool_profile : ToolProfile
  allow_exec : Bool
deriving DecidableEq

/-- config.rs lines 125-140: `impl Default for Config`. -/
def Config.defaultConfig : Config :=
  { provider := .Anthropic
    anthropic_api_key := none
    gateway_port := 18789
    auto_start_gateway := true
    api_mode := .Byo
    license_key := none
    user_email := none
    selected_model := none
    tool_profile := .Full
    allow_exec := true }

/-- config.rs lines 172-187: the filtered view of Config sent over IPC. -/
structure SafeConfig where
  provider : Provider
  has_api_key : Bool
  gateway_port : Nat
  auto_start_gateway : Bool
  api_mode : ApiMode
  license_key : Option String
  user_email : Option String
  selected_model : Option String
  tool_profile : ToolProfile
  allow_exec : Bool
deriving DecidableEq

/-- config.rs lines 189-204: `SafeConfig::from_config`. -/
def SafeConfig.from_config (config : Config) : SafeConfig :=
  { provider := config.provider
    has_api_key := config.anthropic_api_key.isSome
    gateway_port := config.gateway_port
    auto_start_gateway := config.auto_start_gateway
    api_mode := config.api_mode
    license_key := config.license_key
    user_email := config.user_email
    selected_model := config.selected_model
    tool_profile := config.tool_profile
    allow_exec := config.allow_exec }

/-- config.rs lines 207-211: `get_config`, with `Config::load()` embedded as
an oracle argument (it reads the config file from disk). -/
def get_config (load : Except String Config) : Except String SafeConfig :=
  load.map SafeConfig.from_config

/-- Whether `needle` occurs as a prefix of `hay` (on character lists). -/
def charsPrefixOf : List Char → List Char → Bool
  | [], _ => true
  | _ :: _, [] => false
  | a :: as, b :: bs => a = b && charsPrefixOf as bs

/-- Whether `needle` occurs as a contiguous sublist of `hay`. -/
def charsSub (needle : List Char) : List Char → Bool
  | [] => needle.isEmpty
  | b :: bs => charsPrefixOf needle (b :: bs) || charsSub needle bs

/-- Rust `str::contains(pat)` for a string pattern: substring containment. -/
def strContains (hay needle : String) : Bool :=
  charsSub needle.toList hay.toList

/-- sidecar.rs lines 614-618: the profile string inside build_tools_json. -/
def profileStr : ToolProfile → String
  | .Full => "full"
  | .Coding => "coding"
  | .Minimal => "minimal"

/-- sidecar.rs lines 611-631: `build_tools_json`.  The Rust raw-string
templates contain literal braces and newlines, reproduced here verbatim. -/
def build_tools_json (tool_profile : ToolProfile) (allow_exec : Bool) : String :=
  if allow_exec || (match tool_profile with | .Minimal => true | _ => false) then
    "\"tools\": \x7b\n    \"profile\": \"" ++ profileStr tool_profile ++ "\"\n  \x7d"
  else
    "\"tools\": \x7b\n    \"profile\": \"" ++ profileStr tool_profile ++
      "\",\n    \"deny\": [\"group:runtime\"]\n  \x7d"

/-- sidecar.rs lines 843-850 (inside `write_managed_openclaw_config`): the
provider-routing identifier and API type selected from the model name. -/
def managed_provider (model : String) : String × String :=
  if strContains model "gpt" || strContains model "o1" || strContains model "o3" then
    ("simplestclaw-openai", "openai-completions")
  else if strContains model "gemini" then
    ("simplestclaw-google", "openai-completions")
  else
    ("simplestclaw-anthropic", "anthropic-messages")

/-- sidecar.rs line 898: the rendered primary model field of the managed
config is `"{provider_name}/{model}"`. -/
def managed_primary (model : String) : String :=
  (managed_provider model).1 ++ "/" ++ model

/-- The compile-time platform (runtime.rs cfg attributes). -/
inductive Platform
  | macosArm64
  | macosX64
  | linuxX64
  | linuxArm64
  | windowsX64
  | unsupported
deriving DecidableEq

def Platform.isWindows : Platform → Bool
  | .windowsX64 => true
  | _ => false

/-- runtime.rs lines 23-62: `get_node_url`, mapping the platform to a
download URL and the expected install-folder name. -/
def get_node_url : Platform → Option (String × String)
  | .macosArm64 =>
    some ("https://nodejs.org/dist/v25.6.0/node-v25.6.0-darwin-arm64.tar.gz",
      "node-v25.6.0-darwin-arm64")
  | .macosX64 =>
    some ("https://nodejs.org/dist/v25.6.0/node-v25.6.0-darwin-x64.tar.gz",
      "node-v25.6.0-darwin-x64")
  | .linuxX64 =>
    some ("https://nodejs.org/dist/v25.6.0/node-v25.6.0-linux-x64.tar.gz",
      "node-v25.6.0-linux-x64")
  | .linuxArm64 =>
    some ("https://nodejs.org/dist/v25.6.0/node-v25.6.0-linux-arm64.tar.gz",
      "node-v25.6.0-linux-arm64")
  | .windowsX64 =>
    some ("https://nodejs.org/dist/v25.6.0/node-v25.6.0-win-x64.zip",
      "node-v25.6.0-win-x64")
  | .unsupported => none

/-- A filesystem snapshot: which paths (as component lists) exist. -/
abbrev Fs := List String → Bool

/-- A filesystem is well formed when the parent of every existing path
exists: a file cannot exist without its containing directory.  This holds
of every real on-disk state. -/
def Fs.wf (fs : Fs) : Prop :=
  ∀ p c, fs (p ++ [c]) = true → fs p = true

/-- The static parts of the environment: the platform and the result of
`dirs::data_local_dir()`. -/
structure Sys where
  platform : Platform
  dataLocalDir : Option (List String)

/-- runtime.rs lines 118-120: `RuntimeManager::runtime_dir`. -/
def runtime_dir (sys : Sys) : Option (List String) :=
  sys.dataLocalDir.map (fun d => d ++ ["simplestclaw", "runtime"])

/-- runtime.rs lines 123-138: `RuntimeManager::node_path`.  Returns the
node binary path under the pinned version folder, when it exists. -/
def node_path (sys : Sys) (fs : Fs) : Option (List String) :=
  match runtime_dir sys, get_node_url sys.platform with
  | some rd, some (_, folder_name) =>
    let node := if sys.platform.isWindows then rd ++ [folder_name, "node.exe"]
      else rd ++ [folder_name, "bin", "node"]
    if fs node then some node else none
  | _, _ => none

/-- runtime.rs lines 141-156: `RuntimeManager::npx_path`. -/
def npx_path (sys : Sys) (fs : Fs) : Option (List String) :=
  match runtime_dir sys, get_node_url sys.platform with
  | some rd, some (_, folder_name) =>
    let npx := if sys.platform.isWindows then rd ++ [folder_name, "npx.cmd"]
      else rd ++ [folder_name, "bin", "npx"]
    if fs npx then some npx else none
  | _, _ => none

/-- runtime.rs lines 159-161: `RuntimeManager::is_installed`. -/
def is_installed (sys : Sys) (fs : Fs) : Bool :=
  (node_path sys fs).isSome && (npx_path sys fs).isSome

/-- runtime.rs lines 165-179: `RuntimeManager::is_correct_version`. -/
def is_correct_version (sys : Sys) (fs : Fs) : Bool :=
  match runtime_dir sys, get_node_url sys.platform with
  | some rd, some (_, expected_folder) => fs (rd ++ [expected_folder])
  | _, _ => false

/-- runtime.rs lines 427-430: `needs_runtime_upgrade`. -/
def needs_runtime_upgrade (sys : Sys) (fs : Fs) : Bool :=
  is_installed sys fs && !is_correct_version sys fs

/-- runtime.rs lines 422-424: `is_runtime_installed`. -/
def is_runtime_installed (sys : Sys) (fs : Fs) : Bool :=
  is_installed sys fs && is_correct_version sys fs

def isPrefixList : List String → List String → Bool
  | [], _ => true
  | _ :: _, [] => false
  | a :: as, b :: bs => a = b && isPrefixList as bs

/-- The filesystem whose existing paths are exactly the prefixes of the
given full paths. -/
def prefixFs (roots : List (List String)) : Fs :=
  fun p => roots.any (fun r => isPrefixList p r)

def c1sys : Sys := ⟨.linuxX64, some ["data"]⟩

/-- The runtime directory for c1sys: data/simplestclaw/runtime. -/
def c1rd : List String := ["data", "simplestclaw", "runtime"]

/-- A filesystem in which only an older Node version
(node-v24.0.0-linux-x64, with its node and npx binaries) is present under
the runtime directory, and the pinned v25.6.0 folder is absent. -/
def c1fs : Fs :=
  prefixFs
    [c1rd ++ ["node-v24.0.0-linux-x64", "bin", "node"],
     c1rd ++ ["node-v24.0.0-linux-x64", "bin", "npx"]]

/-- runtime.rs lines 88-102: in-memory download state.  `progress` is f32
in the source; no claim depends on float rounding, so it is embedded as a
rational number. -/
structure RuntimeState where
  downloading : Bool
  progress : Rat
  error : Option String

def RuntimeState.defaultState : RuntimeState :=
  { downloading := false, progress := 0, error := none }

/-- One chunk event of the streaming download (runtime.rs lines 308-322):
either the stream yields an error, the write to the temp file fails, or a
chunk of the given size is appended successfully. -/
inductive ChunkEv
  | chunkErr (msg : String)
  | writeErr (size : Nat) (msg : String)
  | ok (size : Nat)

/-- Oracle for `download_and_extract` (runtime.rs lines 282-366): outcomes
of the GET request, the temp-file creation, the chunk stream, the archive
extraction (the tar/zip extractors bundle their own error prefixes, so the
oracle carries the full message), the filesystem after extraction and
temp-file removal, and the read_dir over the bin directory used for
permission normalisation.  Setting the executable bit does not change path
existence, so it needs no filesystem effect. -/
structure DlWorld where
  send : Except String Unit
  totalSize : Option Nat
  createTemp : Except String Unit
  chunks : List ChunkEv
  extract : Except String Unit
  fsExtract : Fs
  binReadDir : Except String Unit

/-- runtime.rs lines 308-322: the chunk-download loop, tracking bytes
downloaded and updating progress when the total size is known. -/
def chunkLoop (total : Option Nat) :
    Nat → RuntimeState → List ChunkEv → RuntimeState × Except String Unit
  | _, st, [] => (st, .ok ())
  | _, st, .chunkErr e :: _ => (st, .error ("Download error: " ++ e))
  | _, st, .writeErr _ e :: _ => (st, .error ("Write error: " ++ e))
  | dl, st, .ok n :: rest =>
    let dl2 := dl + n
    let st2 := match total with
      | some t => { st with progress := ((dl2 : Rat) / (t : Rat)) * 100 }
      | none => st
    chunkLoop total dl2 st2 rest

/-- runtime.rs lines 282-366: `RuntimeManager::download_and_extract`.
Download errors keep the filesystem unchanged; a successful extraction
replaces it with the oracle's post-extraction snapshot, which the
verification step then inspects via `is_installed`. -/
def download_and_extract (sys : Sys) (w : DlWorld) (fs : Fs)
    (st : RuntimeState) : RuntimeState × Except String Unit × Fs :=
  match w.send with
  | .error e => (st, .error ("Download failed: " ++ e), fs)
  | .ok _ =>
    match w.createTemp with
    | .error e => (st, .error ("Failed to create temp file: " ++ e), fs)
    | .ok _ =>
      match chunkLoop w.totalSize 0 st w.chunks with
      | (st1, .error e) => (st1, .error e, fs)
      | (st1, .ok _) =>
        let st2 := { st1 with progress := 100 }
        match w.extract with
        | .error e => (st2, .error e, fs)
        | .ok _ =>
          let fs2 := w.fsExtract
          if is_installed sys fs2 = false then
            (st2, .error "Installation verification failed", fs2)
          else if sys.platform.isWindows then
            (st2, .ok (), fs2)
          else
            match w.binReadDir with
            | .error e => (st2, .error e, fs2)
            | .ok _ => (st2, .ok (), fs2)

/-- Which return statement of `install` fired. -/
inductive InstallExit
  | already
  | unsupportedPlatform
  | noRuntimeDir
  | createDirFail
  | dlPhase
deriving DecidableEq

structure InstallOut where
  state : RuntimeState
  result : Except String Unit
  fs : Fs
  exitPoint : InstallExit

/-- Oracle for `install`: the filesystem after the best-effort
`cleanup_old_versions` sweep (its errors are only logged), the result of
`create_dir_all`, and the download oracle. -/
structure InstallWorld where
  fsCleanup : Fs
  createDir : Except String Unit
  dl : DlWorld

/-- runtime.rs lines 237-280: `RuntimeManager::install`. -/
def install (sys : Sys) (w : InstallWorld) (fs : Fs) (st : RuntimeState) :
    InstallOut :=
  if is_installed sys fs && is_correct_version sys fs then
    ⟨st, .ok (), fs, .already⟩
  else
    let fs1 := w.fsCleanup
    match get_node_url sys.platform with
    | none => ⟨st, .error "Unsupported platform", fs1, .unsupportedPlatform⟩
    | some _ =>
      match runtime_dir sys with
      | none =>
        ⟨st, .error "Could not determine runtime directory", fs1, .noRuntimeDir⟩
      | some _ =>
        match w.createDir with
        | .error e =>
          ⟨st, .error ("Failed to create runtime directory: " ++ e), fs1,
            .createDirFail⟩
        | .ok _ =>
          let st1 : RuntimeState :=
            { downloading := true, progress := 0, error := none }
          let r := download_and_extract sys w.dl fs1 st1
          let st3 : RuntimeState :=
            { r.1 with
              downloading := false
              error := match r.2.1 with
                | .error e => some e
                | .ok _ => r.1.error }
          ⟨st3, r.2.1, r.2.2, .dlPhase⟩

def c6fs : Fs :=
  prefixFs
    [c1rd ++ ["node-v25.6.0-linux-x64", "bin", "node"],
     c1rd ++ ["node-v25.6.0-linux-x64", "bin", "npx"]]

def c6world : InstallWorld :=
  { fsCleanup := prefixFs []
    createDir := .ok ()
    dl :=
      { send := .ok ()
        totalSize := none
        createTemp := .ok ()
        chunks := []
        extract := .ok ()
        fsExtract := prefixFs []
        binReadDir := .ok () } }

/-- sidecar.rs lines 24-28: gateway connection info. -/
structure GatewayInfo where
  url : String
  port : Nat
  token : String
deriving DecidableEq

/-- sidecar.rs lines 30-36: caller-facing status snapshot. -/
structure GatewayStatus where
  running : Bool
  info : Option GatewayInfo
  error : Option String
deriving DecidableEq

/-- An opaque child-process handle (std::process::Child). -/
structure ChildProc where
  pid : Nat
deriving DecidableEq

/-- sidecar.rs lines 38-41: the single subprocess slot. -/
structure SidecarState where
  child : Option ChildProc
  info : Option GatewayInfo
deriving DecidableEq

def SidecarState.defaultState : SidecarState := ⟨none, none⟩

/-- Result of `Child::try_wait` on a handle: the process exited, is still
running, or the query itself failed. -/
inductive TryWaitRes
  | exited
  | running
  | err
deriving DecidableEq

/-- One observation of the readiness-polling loop (sidecar.rs lines
250-296): on each attempt the child has either exited (with an optional
exit code, the Display rendering of its status, and whatever stderr was
captured), the try_wait call failed, or the child is alive and the TCP
probe of the port either connects or does not. -/
inductive PollObs
  | exited (code : Option Int) (display : String) (stderr : String)
  | waitErr (msg : String)
  | alive (portReady : Bool)

/-- Oracle for a single `SidecarManager::start` call.  Each field is the
outcome of one effectful operation, in program order.  The slot lock is
modelled as always acquired (lock poisoning is a cross-thread panic
artefact outside this sequential embedding). -/
structure StartWorld where
  /-- `try_wait` on the pre-existing child, when the slot is occupied. -/
  tryWait0 : TryWaitRes
  /-- `Config::load()`. -/
  configLoad : Except String Config
  /-- first `TcpStream::connect` probe of the target port. -/
  probe1 : Bool
  /-- re-probe after the orphan sweep and the 1500 ms settle sleep. -/
  probe2 : Bool
  /-- `RuntimeManager::is_installed()`. -/
  isInstalled : Bool
  /-- `find_node_and_npx()`: node binary path and npx-cli path. -/
  findNodeNpx : Option (String × String)
  /-- `generate_token()` (wall-clock derived in the source). -/
  token : String
  /-- result of `write_managed_openclaw_config` / `write_byo_openclaw_config`
  (both are propagated with `?`). -/
  configWrite : Except String String
  /-- `Command::spawn`. -/
  spawn : Except String ChildProc
  /-- readiness-polling observations, per attempt index. -/
  poll : Nat → PollObs

/-- Which return statement of `start` fired. -/
inductive StartExit
  | fastPath
  | configErr
  | portInUse
  | runtimeNotInstalled
  | missingLicense
  | missingApiKey
  | nodeNotFound
  | configWriteErr
  | spawnFail
  | exit127
  | exitedEarly
  | pollWaitErr
  | readyTimeout
  | success
deriving DecidableEq

/-- Outcome of one `start` call: the slot afterwards, the returned value,
which return fired, and instrumentation counters: how many times
`Command::spawn` was reached, how many orphan sweeps ran, and how many
post-sweep re-probes of the port happened. -/
structure StartOutcome where
  state : SidecarState
  result : Except String GatewayInfo
  exitPoint : StartExit
  spawnAttempts : Nat
  sweeps : Nat
  reprobes : Nat

def runtimeNotInstalledMsg : String :=
  "Node.js runtime not installed. Please wait for the download to complete, or click \x27Install Runtime\x27 in Settings."

def noLicenseMsg : String :=
  "No license key configured. Please sign up or log in."

def noApiKeyMsg : String :=
  "No API key configured. Please enter your API key in Settings."

def nodeNotFoundMsg : String :=
  "Node.js runtime not found. Please click \x27Install Runtime\x27 in Settings."

def portInUseMsg (port : Nat) : String :=
  "Port " ++ toString port ++
    " is still in use. Another gateway may be running. Please close all simplestclaw windows and try again."

def timeoutMsg : String :=
  "Gateway failed to start within 30 seconds. Please check your internet connection and try again."

def exit127Msg (node_cmd stderr : String) : String :=
  "Gateway failed: command not found (exit code 127). Node path: " ++ node_cmd ++
    ". This usually means the Node.js binary couldn\x27t execute. stderr: " ++ stderr

def exitedEarlyMsg (display stderr : String) : String :=
  "Gateway process exited unexpectedly with status: " ++ display ++
    ". stderr: " ++ stderr

/-- Result of the bounded readiness-polling loop. -/
inductive PollRes
  | exited (code : Option Int) (display : String) (stderr : String)
  | waitErr (msg : String)
  | ready
  | timeout

/-- sidecar.rs lines 249-296: `for attempt in 0..60`, checking process
liveness then TCP connectability, 500 ms apart. -/
def pollLoop (obs : Nat → PollObs) : Nat → Nat → PollRes
  | _, 0 => .timeout
  | attempt, Nat.succ fuel =>
    match obs attempt with
    | .exited code display stderr => .exited code display stderr
    | .waitErr msg => .waitErr msg
    | .alive true => .ready
    | .alive false => pollLoop obs (attempt + 1) fuel

/-- sidecar.rs lines 141-311: the tail of `start` after the port-conflict
check: runtime check, credential validation, token generation, node/npx
lookup, config write, spawn, readiness polling, slot update. -/
def startSpawnPhase (s : SidecarState) (w : StartWorld) (config : Config) :
    StartOutcome :=
  if w.isInstalled = false then
    ⟨s, .error runtimeNotInstalledMsg, .runtimeNotInstalled, 0, 0, 0⟩
  else
    match config.api_mode with
    | .Managed =>
      if config.license_key.isNone then
        ⟨s, .error noLicenseMsg, .missingLicense, 0, 0, 0⟩
      else startLaunch s w config
    | .Byo =>
      if config.anthropic_api_key.isNone then
        ⟨s, .error noApiKeyMsg, .missingApiKey, 0, 0, 0⟩
      else startLaunch s w config
where
  /-- token generation onwards (sidecar.rs lines 141-311). -/
  startLaunch (s : SidecarState) (w : StartWorld) (config : Config) :
      StartOutcome :=
    let token := w.token
    match w.findNodeNpx with
    | none => ⟨s, .error nodeNotFoundMsg, .nodeNotFound, 0, 0, 0⟩
    | some (node_cmd, _npx_cli_path) =>
      -- clear_npx_cache() and the PATH computation have no effect on the
      -- slot, the result, or any counter.
      match w.configWrite with
      | .error e => ⟨s, .error e, .configWriteErr, 0, 0, 0⟩
      | .ok _ =>
        match w.spawn with
        | .error e =>
          ⟨s, .error ("Failed to start gateway: " ++ e), .spawnFail, 1, 0, 0⟩
        | .ok child =>
          let info : GatewayInfo :=
            ⟨"ws://localhost:" ++ toString config.gateway_port,
              config.gateway_port, token⟩
          match pollLoop w.poll 0 60 with
          | .exited code display stderr =>
            if code.getD (-1) = 127 then
              ⟨s, .error (exit127Msg node_cmd stderr), .exit127, 1, 0, 0⟩
            else
              ⟨s, .error (exitedEarlyMsg display stderr), .exitedEarly, 1, 0, 0⟩
          | .waitErr msg =>
            ⟨s, .error ("Failed to check gateway status: " ++ msg),
              .pollWaitErr, 1, 0, 0⟩
          | .timeout => ⟨s, .error timeoutMsg, .readyTimeout, 1, 0, 0⟩
          | .ready =>
            ⟨⟨some child, some info⟩, .ok info, .success, 1, 0, 0⟩

/-- sidecar.rs lines 95-115: the port-conflict check.  When the first
probe connects, one orphan sweep runs (the lock is dropped and reacquired
around it), followed by exactly one re-probe; if still connectable, the
call fails with the port-in-use message. -/
def startPortPhase (s : SidecarState) (w : StartWorld) : StartOutcome :=
  match w.configLoad with
  | .error e =>
    ⟨s, .error ("Failed to load config: " ++ e), .configErr, 0, 0, 0⟩
  | .ok config =>
    if w.probe1 then
      if w.probe2 then
        ⟨s, .error (portInUseMsg config.gateway_port), .portInUse, 0, 1, 1⟩
      else
        let o := startSpawnPhase s w config
        { o with sweeps := o.sweeps + 1, reprobes := o.reprobes + 1 }
    else
      startSpawnPhase s w config

/-- sidecar.rs lines 69-312: `SidecarManager::start`.  Lines 72-93: if a
child handle exists, poll its exit status; if it exited (or the poll
failed), clear the slot and fall through to a fresh start; if it is still
running and the slot has cached info, return it immediately. -/
def SidecarManager.start (s : SidecarState) (w : StartWorld) : StartOutcome :=
  match s.child with
  | some _ =>
    match w.tryWait0 with
    | .running =>
      match s.info with
      | some info => ⟨s, .ok info, .fastPath, 0, 0, 0⟩
      | none => startPortPhase s w
    | _ => startPortPhase ⟨none, none⟩ w
  | none => startPortPhase s w

/-- sidecar.rs lines 315-333: `SidecarManager::stop`: kill the tree if a
child exists, clear the slot, always run the orphan sweep, return Ok. -/
def SidecarManager.stop (_s : SidecarState) : SidecarState × Except String Unit :=
  (⟨none, none⟩, .ok ())

/-- Oracle for one `status` call. -/
structure StatusWorld where
  isInstalled : Bool
  tryWait : TryWaitRes

/-- sidecar.rs lines 336-374: `SidecarManager::status`: report
runtime_not_installed without touching the slot when the runtime is
absent; otherwise reconcile the cached handle's liveness (clearing the
slot on exit or error) and report. -/
def SidecarManager.status (s : SidecarState) (w : StatusWorld) :
    SidecarState × GatewayStatus :=
  if w.isInstalled = false then
    (s, ⟨false, none, some "runtime_not_installed"⟩)
  else
    match s.child with
    | some _ =>
      match w.tryWait with
      | .running => (s, ⟨true, s.info, none⟩)
      | _ => (⟨none, none⟩, ⟨false, none, none⟩)
    | none => (s, ⟨false, s.info, none⟩)

def cfgW : Config :=
  { provider := .Anthropic
    anthropic_api_key := some "k"
    gateway_port := 1
    auto_start_gateway := true
    api_mode := .Byo
    license_key := none
    user_email := none
    selected_model := none
    tool_profile := .Full
    allow_exec := true }

/-- A world in which every effect succeeds on the first try. -/
def baseWorld : StartWorld :=
  { tryWait0 := .running
    configLoad := .ok cfgW
    probe1 := false
    probe2 := false
    isInstalled := true
    findNodeNpx := some ("node", "npx-cli.js")
    token := "t"
    configWrite := .ok "cfg"
    spawn := .ok ⟨1⟩
    poll := fun _ => .alive true }

def gwInfoW : GatewayInfo := ⟨"ws://localhost:1", 1, "t"⟩

/-- Reachability of a slot state under any sequence of start, stop, and
status calls, with arbitrary worlds, from the default empty slot. -/
inductive ReachableSlot : SidecarState → Prop
  | init : ReachableSlot SidecarState.defaultState
  | startStep (s : SidecarState) (w : StartWorld) :
      ReachableSlot s → ReachableSlot (SidecarManager.start s w).state
  | stopStep (s : SidecarState) :
      ReachableSlot s → ReachableSlot (SidecarManager.stop s).1
  | statusStep (s : SidecarState) (w : StatusWorld) :
      ReachableSlot s → ReachableSlot (SidecarManager.status s w).1

def c4world : StartWorld := { baseWorld with isInstalled := false }

def c5world : StartWorld := { baseWorld with probe1 := true, probe2 := true }

/-- An install world whose GET request fails. -/
def c10world : InstallWorld :=
  { fsCleanup := prefixFs []
    createDir := .ok ()
    dl :=
      { send := .error "boom"
        totalSize := none
        createTemp := .ok ()
        chunks := []
        extract := .ok ()
        fsExtract := prefixFs []
        binReadDir := .ok () } }

/-- An empty filesystem: nothing installed. -/
def c10fs : Fs := prefixFs []

/- =====================================================================
   PART 2: theorems
===================================================================== -/

/-- C7: for every (ToolProfile, allowExec) pair, the rendered tools block
contains the deny entry for the exec/runtime capability group exactly when
allowExec is false and the profile is not Minimal; and the block always
contains the profile name. -/
theorem c7_tools_deny_iff (tp : ToolProfile) (allow_exec : Bool) :
    (strContains (build_tools_json tp allow_exec) "\"deny\": [\"group:runtime\"]" = true ↔
      (allow_exec = false ∧ tp ≠ ToolProfile.Minimal)) ∧
    strContains (build_tools_json tp allow_exec)
      ("\"profile\": \"" ++ profileStr tp ++ "\"") = true := by
  cases tp <;> cases allow_exec <;> exact (by decide)

/-- C8 counterexample: the model name "o1" contains neither "gpt" nor
"gemini", so by the claim it should select Anthropic-style routing; the
code routes it to the OpenAI-style identifier instead (the condition also
matches the substrings "o1" and "o3"). -/
theorem c8_counterexample :
    strContains "o1" "gpt" = false ∧
    strContains "o1" "gemini" = false ∧
    (managed_provider "o1").1 = "simplestclaw-openai" ∧
    (managed_provider "o1").1 ≠ "simplestclaw-anthropic" := by
  decide

/-- C8 (amended): in Managed mode, model names containing "gpt", "o1" or
"o3" select the OpenAI-style routing identifier; of the remaining names,
those containing "gemini" select Google-style routing; all others select
Anthropic-style routing.  The rendered primary field is the selected
identifier followed by "/" and the model name. -/
theorem c8_amended_routing (model : String) :
    (strContains model "gpt" = true ∨ strContains model "o1" = true ∨
        strContains model "o3" = true →
      (managed_provider model).1 = "simplestclaw-openai") ∧
    (strContains model "gpt" = false → strContains model "o1" = false →
        strContains model "o3" = false → strContains model "gemini" = true →
      (managed_provider model).1 = "simplestclaw-google") ∧
    (strContains model "gpt" = false → strContains model "o1" = false →
        strContains model "o3" = false → strContains model "gemini" = false →
      (managed_provider model).1 = "simplestclaw-anthropic") ∧
    managed_primary model = (managed_provider model).1 ++ "/" ++ model := by
  refine ⟨?_, ?_, ?_, rfl⟩
  · intro h
    rcases h with h | h | h <;> simp [managed_provider, h]
  · intro h1 h2 h3 h4
    simp [managed_provider, h1, h2, h3, h4]
  · intro h1 h2 h3 h4
    simp [managed_provider, h1, h2, h3, h4]

/-- C8 amended-claim witness at concrete model names from each family. -/
theorem c8_amended_routing_witness :
    (managed_provider "gpt-5.2").1 = "simplestclaw-openai" ∧
    (managed_provider "gemini-3-flash-preview").1 = "simplestclaw-google" ∧
    (managed_provider "claude-sonnet-4-5-20250929").1 = "simplestclaw-anthropic" :=
  ⟨(c8_amended_routing "gpt-5.2").1 (Or.inl (by decide)),
   (c8_amended_routing "gemini-3-flash-preview").2.1
     (by decide) (by decide) (by decide) (by decide),
   (c8_amended_routing "claude-sonnet-4-5-20250929").2.2.1
     (by decide) (by decide) (by decide) (by decide)⟩

/-- C9: the caller-facing config snapshot never reveals the stored API key
beyond its presence: two Config values that differ only in the string
inside Some(anthropic_api_key) produce identical SafeConfig outputs (and
hence identical get_config outputs), exposing only the boolean
has_api_key. -/
theorem c9_safeconfig_noninterference (c : Config) (k1 k2 : String) :
    SafeConfig.from_config { c with anthropic_api_key := some k1 } =
      SafeConfig.from_config { c with anthropic_api_key := some k2 } ∧
    get_config (.ok { c with anthropic_api_key := some k1 }) =
      get_config (.ok { c with anthropic_api_key := some k2 }) :=
  ⟨rfl, rfl⟩

theorem isPrefixList_drop (p : List String) (c : String) :
    ∀ r, isPrefixList (p ++ [c]) r = true → isPrefixList p r = true := by
  induction p with
  | nil => intro r _; rfl
  | cons a as ih =>
    intro r h
    cases r with
    | nil => simp [isPrefixList] at h
    | cons b bs =>
      simp only [List.cons_append, isPrefixList, Bool.and_eq_true] at h ⊢
      exact ⟨h.1, ih bs h.2⟩

theorem prefixFs_wf (roots : List (List String)) : Fs.wf (prefixFs roots) := by
  intro p c h
  simp only [prefixFs, List.any_eq_true] at h ⊢
  obtain ⟨r, hr, hpre⟩ := h
  exact ⟨r, hr, isPrefixList_drop p c r hpre⟩

/-- On a well-formed filesystem, an installed runtime implies the pinned
version directory exists: node_path only reports a binary beneath the
pinned folder, so that folder must exist. -/
theorem installed_imp_correct (sys : Sys) (fs : Fs) (hwf : Fs.wf fs)
    (h : is_installed sys fs = true) : is_correct_version sys fs = true := by
  unfold is_installed at h
  unfold node_path at h
  unfold is_correct_version
  cases hrd : runtime_dir sys with
  | none => rw [hrd] at h; simp at h
  | some rd =>
    cases hurl : get_node_url sys.platform with
    | none => rw [hrd, hurl] at h; simp at h
    | some pr =>
      obtain ⟨url, folder⟩ := pr
      rw [hrd, hurl] at h
      simp only at h
      cases hwin : sys.platform.isWindows with
      | true =>
        rw [hwin] at h
        simp only [if_true] at h
        by_cases hex : fs (rd ++ [folder, "node.exe"]) = true
        · have heq : rd ++ [folder, "node.exe"] = (rd ++ [folder]) ++ ["node.exe"] := by
            simp
          rw [heq] at hex
          exact hwf _ _ hex
        · simp only [Bool.not_eq_true] at hex
          rw [hex] at h
          simp at h
      | false =>
        rw [hwin] at h
        simp only [Bool.false_eq_true, if_false] at h
        by_cases hex : fs (rd ++ [folder, "bin", "node"]) = true
        · have heq : rd ++ [folder, "bin", "node"]
              = ((rd ++ [folder]) ++ ["bin"]) ++ ["node"] := by simp
          rw [heq] at hex
          exact hwf _ _ (hwf _ _ hex)
        · simp only [Bool.not_eq_true] at hex
          rw [hex] at h
          simp at h

/-- On any well-formed filesystem `needs_runtime_upgrade` is constantly
false: `is_installed` already entails the pinned folder exists, so the
conjunction with its negation never holds. -/
theorem needs_runtime_upgrade_never (sys : Sys) (fs : Fs) (hwf : Fs.wf fs) :
    needs_runtime_upgrade sys fs = false := by
  unfold needs_runtime_upgrade
  cases hi : is_installed sys fs with
  | false => simp
  | true => rw [installed_imp_correct sys fs hwf hi]; simp

/-- C1 (code bug, evaluated at the failing input): with a non-pinned Node
version directory present (including its binaries) and the pinned version
absent, the spec says needsUpgrade must be true, but `needs_runtime_upgrade`
returns false: `is_installed` only inspects the pinned folder, so the
conjunction `is_installed && !is_correct_version` cannot fire.  (See
`needs_runtime_upgrade_never`: on every well-formed filesystem the function
is constantly false.) -/
theorem c1_needs_upgrade_bug :
    c1fs (c1rd ++ ["node-v24.0.0-linux-x64"]) = true ∧
    c1fs (c1rd ++ ["node-v24.0.0-linux-x64", "bin", "node"]) = true ∧
    c1fs (c1rd ++ ["node-v24.0.0-linux-x64", "bin", "npx"]) = true ∧
    is_correct_version c1sys c1fs = false ∧
    is_installed c1sys c1fs = false ∧
    needs_runtime_upgrade c1sys c1fs = false := by
  decide

/-- A successful `download_and_extract` returns the post-extraction
filesystem and only after `is_installed` verified true on it. -/
theorem download_ok_installed (sys : Sys) (w : DlWorld) (fs : Fs)
    (st : RuntimeState)
    (h : (download_and_extract sys w fs st).2.1 = .ok ()) :
    (download_and_extract sys w fs st).2.2 = w.fsExtract ∧
    is_installed sys w.fsExtract = true := by
  revert h
  unfold download_and_extract
  repeat' split
  all_goals intro h
  all_goals cases hins : is_installed sys w.fsExtract
  all_goals simp_all

/-- C6: if `install()` returns Ok, then immediately afterwards both
`is_installed()` and `is_correct_version()` are true on the resulting
filesystem: the install path either short-circuits when both already hold,
or re-verifies `is_installed` before returning (failing with the
verification error otherwise), and an installed runtime implies the pinned
version directory exists on a well-formed filesystem. -/
theorem c6_install_ok_installed (sys : Sys) (w : InstallWorld) (fs : Fs)
    (st : RuntimeState) (hwf : Fs.wf w.dl.fsExtract)
    (h : (install sys w fs st).result = .ok ()) :
    is_installed sys (install sys w fs st).fs = true ∧
    is_correct_version sys (install sys w fs st).fs = true := by
  revert h
  unfold install
  split
  · rename_i hb
    intro _
    simp only [Bool.and_eq_true] at hb
    exact hb
  · split
    · intro h; simp at h
    · split
      · intro h; simp at h
      · split
        · intro h; simp at h
        · intro h
          simp only at h ⊢
          obtain ⟨hfs, hins⟩ := download_ok_installed sys w.dl w.fsCleanup
            { downloading := true, progress := 0, error := none } h
          rw [hfs]
          exact ⟨hins, installed_imp_correct sys w.dl.fsExtract hwf hins⟩

/-- C6 witness: with the pinned runtime already on disk, install
short-circuits with Ok and both queries hold afterwards. -/
theorem c6_install_ok_installed_witness :
    is_installed c1sys (install c1sys c6world c6fs RuntimeState.defaultState).fs = true ∧
    is_correct_version c1sys (install c1sys c6world c6fs RuntimeState.defaultState).fs = true :=
  c6_install_ok_installed c1sys c6world c6fs RuntimeState.defaultState
    (prefixFs_wf []) (by rfl)

/-- C10: install never leaves the download flag stuck: starting from a
state with the flag clear, every return path of install leaves
`downloading = false`; and when the download/extract phase returns an
error, that error message is stored in `state.error` before install
returns. -/
theorem c10_download_flag (sys : Sys) (w : InstallWorld) (fs : Fs)
    (st : RuntimeState) (h : st.downloading = false) :
    (install sys w fs st).state.downloading = false ∧
    (∀ e, (install sys w fs st).exitPoint = .dlPhase →
      (install sys w fs st).result = .error e →
      (install sys w fs st).state.error = some e) := by
  unfold install
  split
  · exact ⟨h, by intro e hx; cases hx⟩
  · split
    · exact ⟨h, by intro e hx; cases hx⟩
    · split
      · exact ⟨h, by intro e hx; cases hx⟩
      · split
        · exact ⟨h, by intro e hx; cases hx⟩
        · refine ⟨rfl, ?_⟩
          intro e _ hres
          simp only at hres ⊢
          rw [hres]

/-- A successful `startLaunch` stores the handle and the returned info in
the slot. -/
theorem startLaunch_ok (s : SidecarState) (w : StartWorld) (config : Config)
    (i : GatewayInfo)
    (h : (startSpawnPhase.startLaunch s w config).result = .ok i) :
    (startSpawnPhase.startLaunch s w config).state.info = some i ∧
    (startSpawnPhase.startLaunch s w config).state.child.isSome = true := by
  revert h
  unfold startSpawnPhase.startLaunch
  repeat' split
  all_goals intro h
  all_goals simp_all

/-- A successful `startSpawnPhase` stores the handle and the returned info
in the slot. -/
theorem startSpawnPhase_ok (s : SidecarState) (w : StartWorld)
    (config : Config) (i : GatewayInfo)
    (h : (startSpawnPhase s w config).result = .ok i) :
    (startSpawnPhase s w config).state.info = some i ∧
    (startSpawnPhase s w config).state.child.isSome = true := by
  revert h
  unfold startSpawnPhase
  split
  · intro h; simp at h
  · split
    · split
      · intro h; simp at h
      · exact fun h => startLaunch_ok s w _ i h
    · split
      · intro h; simp at h
      · exact fun h => startLaunch_ok s w _ i h

/-- A successful `startPortPhase` stores the handle and the returned info
in the slot. -/
theorem startPortPhase_ok (s : SidecarState) (w : StartWorld)
    (i : GatewayInfo) (h : (startPortPhase s w).result = .ok i) :
    (startPortPhase s w).state.info = some i ∧
    (startPortPhase s w).state.child.isSome = true := by
  revert h
  unfold startPortPhase
  split
  · intro h; simp at h
  · split
    · split
      · intro h; simp at h
      · exact fun h => startSpawnPhase_ok s w _ i h
    · exact fun h => startSpawnPhase_ok s w _ i h

/-- After any successful `start`, the slot holds the returned info and a
child handle. -/
theorem start_ok (s : SidecarState) (w : StartWorld) (i : GatewayInfo)
    (h : (SidecarManager.start s w).result = .ok i) :
    (SidecarManager.start s w).state.info = some i ∧
    (SidecarManager.start s w).state.child.isSome = true := by
  revert h
  unfold SidecarManager.start
  split
  · split
    · split
      · intro h
        simp_all
      · exact fun h => startPortPhase_ok s w i h
    · exact fun h => startPortPhase_ok ⟨none, none⟩ w i h
  · exact fun h => startPortPhase_ok s w i h

/-- With a live child and cached info, `start` takes the fast path: it
returns the cached info, leaves the slot untouched, and reaches no spawn,
sweep, or probe. -/
theorem start_fastPath (s : SidecarState) (w : StartWorld) (c : ChildProc)
    (i : GatewayInfo) (hc : s.child = some c) (hw : w.tryWait0 = .running)
    (hi : s.info = some i) :
    SidecarManager.start s w = ⟨s, .ok i, .fastPath, 0, 0, 0⟩ := by
  unfold SidecarManager.start
  rw [hc, hw, hi]

/-- C2: start is idempotent while the child is alive: if a first start
succeeded with info i and the spawned process has not exited (try_wait
reports it running), a second start returns the same GatewayInfo, reaches
no Command::spawn, and leaves the slot unchanged. -/
theorem c2_start_idempotent (s : SidecarState) (w1 w2 : StartWorld)
    (i : GatewayInfo)
    (h1 : (SidecarManager.start s w1).result = .ok i)
    (h2 : w2.tryWait0 = .running) :
    (SidecarManager.start (SidecarManager.start s w1).state w2).result = .ok i ∧
    (SidecarManager.start (SidecarManager.start s w1).state w2).spawnAttempts = 0 ∧
    (SidecarManager.start (SidecarManager.start s w1).state w2).state =
      (SidecarManager.start s w1).state := by
  obtain ⟨hinfo, hchild⟩ := start_ok s w1 i h1
  obtain ⟨c, hc⟩ := Option.isSome_iff_exists.mp hchild
  rw [start_fastPath (SidecarManager.start s w1).state w2 c i hc h2 hinfo]
  exact ⟨rfl, rfl, rfl⟩

/-- C2 witness: a concrete successful start followed by a second start in
a world whose try_wait reports the child alive. -/
theorem c2_start_idempotent_witness :
    (SidecarManager.start SidecarState.defaultState baseWorld).result = .ok gwInfoW ∧
    (SidecarManager.start
      (SidecarManager.start SidecarState.defaultState baseWorld).state
        baseWorld).result = .ok gwInfoW ∧
    (SidecarManager.start
      (SidecarManager.start SidecarState.defaultState baseWorld).state
        baseWorld).spawnAttempts = 0 :=
  ⟨by rfl,
   (c2_start_idempotent SidecarState.defaultState baseWorld baseWorld gwInfoW
     (by rfl) rfl).1,
   (c2_start_idempotent SidecarState.defaultState baseWorld baseWorld gwInfoW
     (by rfl) rfl).2.1⟩

theorem startLaunch_preserves (s : SidecarState) (w : StartWorld)
    (config : Config) (hP : s.info.isSome = s.child.isSome) :
    (startSpawnPhase.startLaunch s w config).state.info.isSome =
      (startSpawnPhase.startLaunch s w config).state.child.isSome := by
  unfold startSpawnPhase.startLaunch
  repeat' split
  all_goals simp_all

theorem startSpawnPhase_preserves (s : SidecarState) (w : StartWorld)
    (config : Config) (hP : s.info.isSome = s.child.isSome) :
    (startSpawnPhase s w config).state.info.isSome =
      (startSpawnPhase s w config).state.child.isSome := by
  unfold startSpawnPhase
  split
  · exact hP
  · split
    · split
      · exact hP
      · exact startLaunch_preserves s w _ hP
    · split
      · exact hP
      · exact startLaunch_preserves s w _ hP

theorem startPortPhase_preserves (s : SidecarState) (w : StartWorld)
    (hP : s.info.isSome = s.child.isSome) :
    (startPortPhase s w).state.info.isSome =
      (startPortPhase s w).state.child.isSome := by
  unfold startPortPhase
  split
  · exact hP
  · split
    · split
      · exact hP
      · exact startSpawnPhase_preserves s w _ hP
    · exact startSpawnPhase_preserves s w _ hP

theorem start_preserves (s : SidecarState) (w : StartWorld)
    (hP : s.info.isSome = s.child.isSome) :
    (SidecarManager.start s w).state.info.isSome =
      (SidecarManager.start s w).state.child.isSome := by
  unfold SidecarManager.start
  split
  · split
    · split
      · simp_all
      · exact startPortPhase_preserves s w hP
    · exact startPortPhase_preserves ⟨none, none⟩ w rfl
  · exact startPortPhase_preserves s w hP

theorem status_preserves (s : SidecarState) (w : StatusWorld)
    (hP : s.info.isSome = s.child.isSome) :
    (SidecarManager.status s w).1.info.isSome =
      (SidecarManager.status s w).1.child.isSome := by
  unfold SidecarManager.status
  split
  · exact hP
  · split
    · split
      · exact hP
      · rfl
    · exact hP

/-- C3: for every reachable slot state, the cached GatewayInfo is present
exactly when a child process handle is present. -/
theorem c3_slot_invariant (s : SidecarState) (h : ReachableSlot s) :
    s.info.isSome = s.child.isSome := by
  induction h with
  | init => rfl
  | startStep s w _ ih => exact start_preserves s w ih
  | stopStep s _ _ => rfl
  | statusStep s w _ ih => exact status_preserves s w ih

/-- C3 witness: the invariant instantiated at the initial (reachable)
empty slot. -/
theorem c3_slot_invariant_witness :
    SidecarState.defaultState.info.isSome =
      SidecarState.defaultState.child.isSome :=
  c3_slot_invariant SidecarState.defaultState ReachableSlot.init

/-- C4: if start is invoked with an empty slot, a loadable config, a port
path that does not fail (the first probe does not connect, or the re-probe
after the sweep does not), and the runtime not installed, then it returns
the RuntimeNotInstalled error, Command::spawn is never reached, and the
slot is left exactly as it was (empty). -/
theorem c4_runtime_not_installed (s : SidecarState) (w : StartWorld)
    (cfg : Config) (hchild : s.child = none)
    (hcfg : w.configLoad = .ok cfg)
    (hport : w.probe1 = false ∨ w.probe2 = false)
    (hinst : w.isInstalled = false) :
    (SidecarManager.start s w).result = .error runtimeNotInstalledMsg ∧
    (SidecarManager.start s w).exitPoint = .runtimeNotInstalled ∧
    (SidecarManager.start s w).spawnAttempts = 0 ∧
    (SidecarManager.start s w).state = s := by
  unfold SidecarManager.start startPortPhase startSpawnPhase
  rw [hchild, hcfg]
  rcases hport with hp | hp
  · simp [hp, hinst]
  · cases hpp : w.probe1
    · simp [hpp, hinst]
    · simp [hpp, hp, hinst]

/-- C4 witness: concrete empty slot, loadable config, free port, runtime
absent. -/
theorem c4_runtime_not_installed_witness :
    (SidecarManager.start SidecarState.defaultState c4world).result =
      .error runtimeNotInstalledMsg ∧
    (SidecarManager.start SidecarState.defaultState c4world).spawnAttempts = 0 ∧
    (SidecarManager.start SidecarState.defaultState c4world).state =
      SidecarState.defaultState :=
  ⟨(c4_runtime_not_installed SidecarState.defaultState c4world cfgW rfl rfl
      (Or.inl rfl) rfl).1,
   (c4_runtime_not_installed SidecarState.defaultState c4world cfgW rfl rfl
      (Or.inl rfl) rfl).2.2.1,
   (c4_runtime_not_installed SidecarState.defaultState c4world cfgW rfl rfl
      (Or.inl rfl) rfl).2.2.2⟩

/-- Every branch of the post-port phase performs no orphan sweep and no
re-probe, and never exits with PortInUse. -/
theorem startSpawnPhase_counters (s : SidecarState) (w : StartWorld)
    (config : Config) :
    (startSpawnPhase s w config).sweeps = 0 ∧
    (startSpawnPhase s w config).reprobes = 0 ∧
    (startSpawnPhase s w config).exitPoint ≠ .portInUse := by
  unfold startSpawnPhase startSpawnPhase.startLaunch
  repeat' split
  all_goals simp_all

/-- C5: when start finds the target port connectable and no tracked child
owns it (empty slot), it performs exactly one orphan sweep and exactly one
re-probe; if the re-probe still connects it fails with PortInUse, and
otherwise it continues the start sequence (the PortInUse exit is
unreachable and no second sweep or re-probe happens). -/
theorem c5_single_sweep_reprobe (s : SidecarState) (w : StartWorld)
    (cfg : Config) (hchild : s.child = none)
    (hcfg : w.configLoad = .ok cfg) (hp1 : w.probe1 = true) :
    (SidecarManager.start s w).sweeps = 1 ∧
    (SidecarManager.start s w).reprobes = 1 ∧
    (w.probe2 = true →
      (SidecarManager.start s w).exitPoint = .portInUse ∧
      (SidecarManager.start s w).result =
        .error (portInUseMsg cfg.gateway_port)) ∧
    (w.probe2 = false →
      (SidecarManager.start s w).exitPoint ≠ .portInUse) := by
  have hcnt := startSpawnPhase_counters s w cfg
  unfold SidecarManager.start startPortPhase
  rw [hchild, hcfg]
  cases hp2 : w.probe2
  · simp only [hp1, hp2, if_true, Bool.false_eq_true, if_false]
    refine ⟨?_, ?_, ?_, ?_⟩
    · simp [hcnt.1]
    · simp [hcnt.2.1]
    · intro hcontra; cases hcontra
    · intro _
      exact hcnt.2.2
  · simp [hp1, hp2]

/-- C5 witness: concrete port-conflict scenario where the re-probe still
finds the port occupied. -/
theorem c5_single_sweep_reprobe_witness :
    (SidecarManager.start SidecarState.defaultState c5world).sweeps = 1 ∧
    (SidecarManager.start SidecarState.defaultState c5world).reprobes = 1 ∧
    (SidecarManager.start SidecarState.defaultState c5world).result =
      .error (portInUseMsg 1) :=
  ⟨(c5_single_sweep_reprobe SidecarState.defaultState c5world cfgW rfl rfl
      rfl).1,
   (c5_single_sweep_reprobe SidecarState.defaultState c5world cfgW rfl rfl
      rfl).2.1,
   ((c5_single_sweep_reprobe SidecarState.defaultState c5world cfgW rfl rfl
      rfl).2.2.1 rfl).2⟩

/-- C10 witness: a concrete failing download leaves the flag clear and the
failure message stored. -/
theorem c10_download_flag_witness :
    (install c1sys c10world c10fs RuntimeState.defaultState).state.downloading = false ∧
    (install c1sys c10world c10fs RuntimeState.defaultState).state.error =
      some "Download failed: boom" :=
  ⟨(c10_download_flag c1sys c10world c10fs RuntimeState.defaultState rfl).1,
   (c10_download_flag c1sys c10world c10fs RuntimeState.defaultState rfl).2
     "Download failed: boom" (by rfl) (by rfl)⟩
